import Mathlib

/-!
Verification of the `lint-configs` repository (Python package `lint_configs`).

The repository ships a bundled linter-configuration file and copies it into a
consumer project.  The code under verification is
`src/python/lint_configs/__init__.py` (`get_python_config_path`,
`copy_config_to_project`) and the CLI dispatch in
`src/python/lint_configs/__main__.py` (`main`).

Shallow embedding choices:
* A target directory is modelled as an association list from file name to
  file content (`Dir`).  Only files of the target directory matter to the
  code: it writes to `pyproject.toml` or `pyproject-linters.toml` inside
  `target_dir` and touches nothing else.
* The two fallible external effects — reading the bundled resource and the
  single `write_text` call — are modelled by an `Env` record: `bundled` is
  the outcome of `source_config.read_text()`, and `writeErr` is the outcome
  of `Path.write_text` (`none` = the write succeeds; `some e` = it raises
  `e`).  A `write_text` call is the atomic unit of writing, mirroring the
  single library call the source makes.
* `copy_config_to_project` returns a `CopyOutcome`: the directory after the
  call, the log of writes performed (path and content, in order), and the
  Python return value or the propagated exception.
* Python `str.rstrip()` is embedded as `pyRstrip` over the characters that
  CPython treats as whitespace in ASCII text.
-/

/-- Python whitespace characters relevant to `str.rstrip()` on the ASCII
text this program handles: space, tab, newline, carriage return, vertical
tab and form feed. -/
def pyIsSpace (c : Char) : Bool :=
  c = ' ' || c = '\t' || c = '\n' || c = '\r' || c = '\x0b' || c = '\x0c'

/-- Embedding of Python `str.rstrip()`: drop trailing whitespace. -/
def pyRstrip (s : String) : String :=
  String.mk ((s.data.reverse.dropWhile pyIsSpace).reverse)

/-- `__version__` in `lint_configs/__init__.py`. -/
def lintConfigsVersion : String := "1.0.0"

/-- The canonical target file name used by `copy_config_to_project`. -/
def canonicalName : String := "pyproject.toml"

/-- The fixed sidecar file name used when the canonical file pre-exists and
no merge was requested. -/
def sidecarName : String := "pyproject-linters.toml"

/-- `"=" * 76` from the separator construction. -/
def eq76 : String := String.mk (List.replicate 76 '=')

/-- The attribution header of `copy_config_to_project` (lines 66–78 of
`__init__.py`), with the version formatted in. -/
def headerText (version : String) : String :=
  "# This configuration was copied from agentic-guardrails package\n" ++
  "# Package version: " ++ version ++ "\n" ++
  "# Source: https://github.com/cajias/lint-configs\n" ++
  "# \n" ++
  "# To update: pip install --upgrade agentic-guardrails && lint-configs copy\n" ++
  "#\n" ++
  "# After copying, customize these sections for your project:\n" ++
  "# - [tool.ruff.lint.isort] known-first-party: Add your package name\n" ++
  "# - [tool.coverage.run] source: Add your package name\n" ++
  "# - [[tool.mypy.overrides]] module: Add your third-party dependencies\n" ++
  "#\n" ++
  "\n"

/-- The separator block built in the APPEND_MERGE branch (lines 85–87). -/
def separatorText : String :=
  "\n\n# " ++ eq76 ++ "\n" ++
  "# Linting Configuration from agentic-guardrails package\n" ++
  "# " ++ eq76 ++ "\n\n"

/-- The contents of the target directory: an association list from file
name to file content.  `Path.exists` on `target_dir / n` is `read n ≠ none`.
-/
abbrev Dir : Type := List (String × String)

/-- Content of the file named `n`, or `none` when no such file exists. -/
def Dir.read (d : Dir) (n : String) : Option String :=
  match d with
  | [] => none
  | (m, c) :: rest => if m = n then some c else Dir.read rest n

/-- `Path.write_text`: create or overwrite the file named `n`. -/
def Dir.write (d : Dir) (n : String) (c : String) : Dir :=
  match d with
  | [] => [(n, c)]
  | (m, cOld) :: rest =>
      if m = n then (n, c) :: rest else (m, cOld) :: Dir.write rest n c

/-- A path returned by `copy_config_to_project`: `target_dir / name`. -/
structure TPath where
  dir : String
  name : String
  deriving DecidableEq, Repr

/-- External effects: the outcome of reading the bundled resource and the
outcome of any `write_text` call in this invocation. -/
structure Env where
  bundled : Except String String
  writeErr : Option String

/-- Result of one invocation of `copy_config_to_project`: the directory
after the call, the write log (path name, content) in order, and the Python
return value (`.ok` the returned path) or the propagated exception. -/
structure CopyOutcome where
  dirAfter : Dir
  writes : List (String × String)
  result : Except String TPath

/-- `get_python_config_path` (`__init__.py` lines 13–25): the fixed bundled
resource path `_PACKAGE_DIR / "python" / "pyproject-linters.toml"`. -/
def get_python_config_path (packageDir : String) : String :=
  packageDir ++ "/python/" ++ sidecarName

/-- `copy_config_to_project` (`__init__.py` lines 28–119).

The Python control flow, line by line: read the bundled resource (line 63,
may raise); build the header (lines 66–78); `target_file = target_dir /
"pyproject.toml"` (line 80); if `merge_with_existing and target_file.
exists()` (line 82): read the existing file, build the separator, write
`existing.rstrip() + separator + header + source` back (lines 84–90);
otherwise (lines 96–105): if the canonical file exists and no merge was
requested, retarget to the fixed sidecar name (lines 98–100), then write
`header + source` (lines 104–105).  Returns `target_file` (line 119). -/
def copy_config_to_project (env : Env) (target_dir : String) (d : Dir)
    (merge_with_existing : Bool) : CopyOutcome :=
  match env.bundled with
  | .error e => ⟨d, [], .error e⟩
  | .ok source_content =>
    let header := headerText lintConfigsVersion
    let target_file := canonicalName
    if merge_with_existing && (d.read target_file).isSome then
      let existing_content := (d.read target_file).getD ""
      let merged_content :=
        pyRstrip existing_content ++ separatorText ++ header ++ source_content
      match env.writeErr with
      | some e => ⟨d, [], .error e⟩
      | none =>
          ⟨d.write target_file merged_content,
           [(target_file, merged_content)],
           .ok ⟨target_dir, target_file⟩⟩
    else
      let target_file :=
        if (d.read target_file).isSome && !merge_with_existing then
          sidecarName
        else
          target_file
      let target_content := header ++ source_content
      match env.writeErr with
      | some e => ⟨d, [], .error e⟩
      | none =>
          ⟨d.write target_file target_content,
           [(target_file, target_content)],
           .ok ⟨target_dir, target_file⟩⟩

/-- The `copy` subcommand of `main` (`__main__.py` lines 54–63): call
`copy_config_to_project`; on success return exit code 0 and no stderr
output; on an exception print `Error: {e}` to stderr and return 1. -/
def cli_copy (env : Env) (target_dir : String) (d : Dir) (merge : Bool) :
    Nat × Option String :=
  match (copy_config_to_project env target_dir d merge).result with
  | .ok _ => (0, none)
  | .error e => (1, some ("Error: " ++ e))

/-- The `show` subcommand of `main` (`__main__.py` lines 65–71): print the
bundled content with `--cat`, otherwise the resource path; exit 0. -/
def cli_show (packageDir : String) (bundled : String) (cat : Bool) :
    String × Nat :=
  if cat then (bundled, 0) else (get_python_config_path packageDir, 0)

/-! ## General lemmas about the directory model and `pyRstrip` -/

/-- Reading after a write: the written name returns the new content, any
other name is untouched. -/
theorem Dir.read_write (d : Dir) (n m c : String) :
    (d.write n c).read m = if n = m then some c else d.read m := by
  induction d with
  | nil => simp [Dir.write, Dir.read]
  | cons hd tl ih =>
      obtain ⟨a, b⟩ := hd
      by_cases han : a = n <;> by_cases hnm : n = m <;> by_cases ham : a = m <;>
        simp_all [Dir.write, Dir.read]

/-- Every string splits into its `pyRstrip` image followed by a (possibly
empty) run of whitespace: `rstrip` discards nothing but trailing
whitespace. -/
theorem pyRstrip_decomposition (s : String) :
    ∃ t : String, s = pyRstrip s ++ t ∧ t.data.all pyIsSpace := by
  refine ⟨String.mk ((s.data.reverse.takeWhile pyIsSpace).reverse), ?_, ?_⟩
  · apply String.ext
    show s.data = ((s.data.reverse.dropWhile pyIsSpace).reverse ++
      (s.data.reverse.takeWhile pyIsSpace).reverse)
    rw [← List.reverse_append, List.takeWhile_append_dropWhile,
      List.reverse_reverse]
  · rw [List.all_eq_true]
    intro c hc
    exact List.mem_takeWhile_imp (List.mem_reverse.mp hc)

/-! ## Claim theorems -/

set_option maxRecDepth 100000 in
/-- Claim C1, counterexample.  With a pre-existing canonical file whose
content is `"a "` (trailing space) and merge requested, the written content
is not the original content followed by separator, header and bundled
content: `rstrip` dropped the trailing space, so the original content is
not even a prefix of the result.  The claimed pure append is violated. -/
theorem append_merge_pure_append_cex :
    ((copy_config_to_project ⟨.ok ("SRC"), none⟩ ("t")
        [(canonicalName, "a ")] true).dirAfter.read canonicalName ≠
      some ("a " ++ separatorText ++ headerText lintConfigsVersion ++ "SRC")) ∧
    ("a ".data.isPrefixOf
      ((((copy_config_to_project ⟨.ok ("SRC"), none⟩ ("t")
          [(canonicalName, "a ")] true).dirAfter.read
            canonicalName).getD ("")).data) = false) := by
  decide

/-- Claim C1, amended.  In the APPEND_MERGE branch the written content is
the original content with its trailing whitespace stripped, followed by the
separator block, the attribution header and the bundled content; nothing
but trailing whitespace of the original is ever discarded, and the write
goes back to the canonical path. -/
theorem append_merge_rstrip_append (env : Env) (tdir : String) (d : Dir)
    (orig src : String) (hb : env.bundled = .ok src) (hw : env.writeErr = none)
    (hex : d.read canonicalName = some orig) :
    (copy_config_to_project env tdir d true).dirAfter.read canonicalName =
      some (pyRstrip orig ++ separatorText ++ headerText lintConfigsVersion ++ src) ∧
    (copy_config_to_project env tdir d true).result = .ok ⟨tdir, canonicalName⟩ ∧
    ∃ t : String, orig = pyRstrip orig ++ t ∧ t.data.all pyIsSpace := by
  refine ⟨?_, ?_, pyRstrip_decomposition orig⟩ <;>
    simp [copy_config_to_project, hb, hw, hex, Dir.read_write]

/-- Claim C1, witness for the amended theorem at a concrete input. -/
theorem append_merge_rstrip_append_wit :
    (copy_config_to_project ⟨.ok ("SRC"), none⟩ ("t")
        [(canonicalName, "a ")] true).dirAfter.read canonicalName =
      some (pyRstrip ("a ") ++ separatorText ++
        headerText lintConfigsVersion ++ "SRC") ∧
    (copy_config_to_project ⟨.ok ("SRC"), none⟩ ("t")
        [(canonicalName, "a ")] true).result = .ok ⟨"t", canonicalName⟩ ∧
    ∃ t : String, "a " = pyRstrip ("a ") ++ t ∧ t.data.all pyIsSpace :=
  append_merge_rstrip_append ⟨.ok ("SRC"), none⟩ ("t")
    [(canonicalName, "a ")] ("a ") ("SRC") rfl rfl (by simp [Dir.read])

/-- Claim C2, counterexample.  When both the canonical file and the sidecar
file `pyproject-linters.toml` pre-exist and merge is not requested, the
write goes to the sidecar name, a path that did previously exist — the
resolver uses a fixed sidecar name, not a non-colliding one. -/
theorem sidecar_noncolliding_cex :
    ((copy_config_to_project ⟨.ok ("SRC"), none⟩ ("t")
        [(canonicalName, "x"), (sidecarName, "y")] false).writes.map
          Prod.fst = [sidecarName]) ∧
    (Dir.read [(canonicalName, "x"), (sidecarName, "y")] sidecarName =
      some ("y")) := by
  decide

/-- Claim C2, amended.  When the canonical file pre-exists and merge is not
requested, `copy_config_to_project` never overwrites the canonical file
(its content is unchanged) and always writes to the fixed, distinct sidecar
name `pyproject-linters.toml`; that sidecar path may itself pre-exist and
is then overwritten. -/
theorem sidecar_fixed_no_overwrite (env : Env) (tdir : String) (d : Dir)
    (orig src : String) (hb : env.bundled = .ok src) (hw : env.writeErr = none)
    (hex : d.read canonicalName = some orig) :
    (copy_config_to_project env tdir d false).writes.map Prod.fst =
      [sidecarName] ∧
    (copy_config_to_project env tdir d false).dirAfter.read canonicalName =
      d.read canonicalName ∧
    sidecarName ≠ canonicalName := by
  have hne : sidecarName ≠ canonicalName := by decide
  refine ⟨?_, ?_, hne⟩ <;>
    simp [copy_config_to_project, hb, hw, hex, Dir.read_write, hne]

/-- Claim C2, witness for the amended theorem at a concrete input. -/
theorem sidecar_fixed_no_overwrite_wit :
    (copy_config_to_project ⟨.ok ("SRC"), none⟩ ("t")
        [(canonicalName, "x"), (sidecarName, "y")] false).writes.map
          Prod.fst = [sidecarName] ∧
    (copy_config_to_project ⟨.ok ("SRC"), none⟩ ("t")
        [(canonicalName, "x"), (sidecarName, "y")] false).dirAfter.read
          canonicalName =
      Dir.read [(canonicalName, "x"), (sidecarName, "y")] canonicalName ∧
    sidecarName ≠ canonicalName :=
  sidecar_fixed_no_overwrite ⟨.ok ("SRC"), none⟩ ("t")
    [(canonicalName, "x"), (sidecarName, "y")] ("x") ("SRC") rfl rfl
    (by simp [Dir.read])

/-- Claim C3.  The four-row decision table: with merge requested and the
canonical file present, the single write is the APPEND_MERGE content at the
canonical path; with merge requested and no canonical file, or no merge and
no canonical file, the single write is header plus bundled content at the
canonical path (CREATE_NEW); with no merge and the canonical file present,
the same content goes to the fixed sidecar name (CREATE_SIDECAR).  The
returned path is in every row the path actually written. -/
theorem copy_decision_table (env : Env) (tdir : String) (d : Dir)
    (merge : Bool) (src : String)
    (hb : env.bundled = .ok src) (hw : env.writeErr = none) :
    (copy_config_to_project env tdir d merge).writes =
      [(if !merge && (d.read canonicalName).isSome then sidecarName
        else canonicalName,
        if merge && (d.read canonicalName).isSome then
          pyRstrip ((d.read canonicalName).getD ("")) ++ separatorText ++
            headerText lintConfigsVersion ++ src
        else headerText lintConfigsVersion ++ src)] ∧
    (copy_config_to_project env tdir d merge).result =
      .ok ⟨tdir, if !merge && (d.read canonicalName).isSome then sidecarName
                 else canonicalName⟩ ∧
    (copy_config_to_project env tdir d merge).dirAfter =
      d.write (if !merge && (d.read canonicalName).isSome then sidecarName
               else canonicalName)
        (if merge && (d.read canonicalName).isSome then
          pyRstrip ((d.read canonicalName).getD ("")) ++ separatorText ++
            headerText lintConfigsVersion ++ src
         else headerText lintConfigsVersion ++ src) := by
  cases merge <;> cases hex : d.read canonicalName <;>
    simp [copy_config_to_project, hb, hw, hex]

/-- Claim C3, witness at a concrete input (no merge, canonical file
present: the CREATE_SIDECAR row). -/
theorem copy_decision_table_wit :
    (copy_config_to_project ⟨.ok ("SRC"), none⟩ ("t")
        [(canonicalName, "x")] false).writes =
      [(sidecarName, headerText lintConfigsVersion ++ "SRC")] ∧
    (copy_config_to_project ⟨.ok ("SRC"), none⟩ ("t")
        [(canonicalName, "x")] false).result = .ok ⟨"t", sidecarName⟩ ∧
    (copy_config_to_project ⟨.ok ("SRC"), none⟩ ("t")
        [(canonicalName, "x")] false).dirAfter =
      Dir.write [(canonicalName, "x")] sidecarName
        (headerText lintConfigsVersion ++ "SRC") := by
  simpa [Dir.read] using copy_decision_table ⟨.ok ("SRC"), none⟩ ("t")
    [(canonicalName, "x")] false ("SRC") rfl rfl

/-- Claim C4.  With no pre-existing canonical file and no merge requested,
the returned path has the canonical basename and the written content is
exactly the attribution header followed immediately by the bundled
content. -/
theorem create_new_contents (env : Env) (tdir : String) (d : Dir)
    (src : String) (hb : env.bundled = .ok src) (hw : env.writeErr = none)
    (hex : d.read canonicalName = none) :
    (copy_config_to_project env tdir d false).result =
      .ok ⟨tdir, canonicalName⟩ ∧
    (copy_config_to_project env tdir d false).writes =
      [(canonicalName, headerText lintConfigsVersion ++ src)] ∧
    (copy_config_to_project env tdir d false).dirAfter.read canonicalName =
      some (headerText lintConfigsVersion ++ src) := by
  refine ⟨?_, ?_, ?_⟩ <;>
    simp [copy_config_to_project, hb, hw, hex, Dir.read_write]

/-- Claim C4, witness on the empty directory. -/
theorem create_new_contents_wit :
    (copy_config_to_project ⟨.ok ("SRC"), none⟩ ("t") [] false).result =
      .ok ⟨"t", canonicalName⟩ ∧
    (copy_config_to_project ⟨.ok ("SRC"), none⟩ ("t") [] false).writes =
      [(canonicalName, headerText lintConfigsVersion ++ "SRC")] ∧
    (copy_config_to_project ⟨.ok ("SRC"), none⟩ ("t")
        [] false).dirAfter.read canonicalName =
      some (headerText lintConfigsVersion ++ "SRC") :=
  create_new_contents ⟨.ok ("SRC"), none⟩ ("t") [] ("SRC") rfl rfl rfl

/-- Claim C5.  With a pre-existing canonical file and no merge requested,
the canonical file is byte-for-byte unchanged after the call, the returned
path has the sidecar basename, and exactly one file write occurs. -/
theorem sidecar_frame (env : Env) (tdir : String) (d : Dir)
    (orig src : String) (hb : env.bundled = .ok src) (hw : env.writeErr = none)
    (hex : d.read canonicalName = some orig) :
    (copy_config_to_project env tdir d false).dirAfter.read canonicalName =
      some orig ∧
    (copy_config_to_project env tdir d false).result =
      .ok ⟨tdir, sidecarName⟩ ∧
    (copy_config_to_project env tdir d false).writes.length = 1 := by
  have hne : sidecarName ≠ canonicalName := by decide
  refine ⟨?_, ?_, ?_⟩ <;>
    simp [copy_config_to_project, hb, hw, hex, Dir.read_write, hne]

/-- Claim C5, witness at a concrete input. -/
theorem sidecar_frame_wit :
    (copy_config_to_project ⟨.ok ("SRC"), none⟩ ("t")
        [(canonicalName, "x")] false).dirAfter.read canonicalName =
      some ("x") ∧
    (copy_config_to_project ⟨.ok ("SRC"), none⟩ ("t")
        [(canonicalName, "x")] false).result = .ok ⟨"t", sidecarName⟩ ∧
    (copy_config_to_project ⟨.ok ("SRC"), none⟩ ("t")
        [(canonicalName, "x")] false).writes.length = 1 :=
  sidecar_frame ⟨.ok ("SRC"), none⟩ ("t") [(canonicalName, "x")] ("x")
    ("SRC") rfl rfl (by simp [Dir.read])

/-- Claim C6.  Running `copy` twice into a directory that starts empty: the
second run routes to CREATE_SIDECAR — it writes only the sidecar name and
returns the sidecar path — and `get_python_config_path` and the `show`
subcommand are deterministic: called twice with the same inputs they return
the same path and the same content. -/
theorem copy_twice_and_show_idempotent (env : Env)
    (tdir packageDir bundled src : String) (cat : Bool)
    (hb : env.bundled = .ok src) (hw : env.writeErr = none) :
    ((copy_config_to_project env tdir
        (copy_config_to_project env tdir [] false).dirAfter false).result =
      .ok ⟨tdir, sidecarName⟩) ∧
    ((copy_config_to_project env tdir
        (copy_config_to_project env tdir [] false).dirAfter
          false).writes.map Prod.fst = [sidecarName]) ∧
    get_python_config_path packageDir = get_python_config_path packageDir ∧
    cli_show packageDir bundled cat = cli_show packageDir bundled cat := by
  have h0 : (copy_config_to_project env tdir ([] : Dir) false).dirAfter =
      [(canonicalName, headerText lintConfigsVersion ++ src)] := by
    simp [copy_config_to_project, hb, hw, Dir.read, Dir.write]
  rw [h0]
  refine ⟨?_, ?_, rfl, rfl⟩ <;>
    simp [copy_config_to_project, hb, hw, Dir.read]

/-- Claim C6, witness at a concrete input. -/
theorem copy_twice_and_show_idempotent_wit :
    ((copy_config_to_project ⟨.ok ("SRC"), none⟩ ("t")
        (copy_config_to_project ⟨.ok ("SRC"), none⟩ ("t") []
          false).dirAfter false).result = .ok ⟨"t", sidecarName⟩) ∧
    ((copy_config_to_project ⟨.ok ("SRC"), none⟩ ("t")
        (copy_config_to_project ⟨.ok ("SRC"), none⟩ ("t") []
          false).dirAfter false).writes.map Prod.fst = [sidecarName]) ∧
    get_python_config_path ("p") = get_python_config_path ("p") ∧
    cli_show ("p") ("B") false = cli_show ("p") ("B") false :=
  copy_twice_and_show_idempotent ⟨.ok ("SRC"), none⟩ ("t") ("p") ("B")
    ("SRC") false rfl rfl

/-- Claim C7.  With no pre-existing canonical file, an invocation with
merge requested is indistinguishable from one without: the whole outcome —
directory after the call, write log and returned value — is equal. -/
theorem merge_true_no_file_equiv (env : Env) (tdir : String) (d : Dir)
    (hex : d.read canonicalName = none) :
    copy_config_to_project env tdir d true =
      copy_config_to_project env tdir d false := by
  cases henv : env.bundled <;> simp [copy_config_to_project, henv, hex]

/-- Claim C7, witness on the empty directory. -/
theorem merge_true_no_file_equiv_wit :
    copy_config_to_project ⟨.ok ("SRC"), none⟩ ("t") [] true =
      copy_config_to_project ⟨.ok ("SRC"), none⟩ ("t") [] false :=
  merge_true_no_file_equiv ⟨.ok ("SRC"), none⟩ ("t") [] rfl

/-- Claim C8.  Whenever `copy_config_to_project` fails — the bundled
resource is unreadable or the single `write_text` call fails — the target
directory is left exactly as it was, no write is recorded, and the error
surfaced is the underlying one, unmodified. -/
theorem error_no_modification (env : Env) (tdir : String) (d : Dir)
    (merge : Bool) (e : String)
    (herr : (copy_config_to_project env tdir d merge).result = .error e) :
    (copy_config_to_project env tdir d merge).dirAfter = d ∧
    (copy_config_to_project env tdir d merge).writes = [] ∧
    (env.bundled = .error e ∨ env.writeErr = some e) := by
  cases henv : env.bundled <;> cases hwr : env.writeErr <;>
    cases merge <;> cases hex : d.read canonicalName <;>
    simp_all [copy_config_to_project]

/-- Claim C8, witness: an unreadable bundled resource propagates and leaves
the directory untouched. -/
theorem error_no_modification_wit :
    (copy_config_to_project ⟨.error ("boom"), none⟩ ("t") []
        false).dirAfter = [] ∧
    (copy_config_to_project ⟨.error ("boom"), none⟩ ("t") []
        false).writes = [] ∧
    ((⟨.error ("boom"), none⟩ : Env).bundled = .error ("boom") ∨
      (⟨.error ("boom"), none⟩ : Env).writeErr = some ("boom")) :=
  error_no_modification ⟨.error ("boom"), none⟩ ("t") [] false ("boom") rfl

/-- Claim C9.  The `copy` subcommand exits 0 with no stderr output when
`copy_config_to_project` succeeds, and on any failure exits 1 after
printing an error message to stderr. -/
theorem cli_copy_exit_codes (env : Env) (tdir : String) (d : Dir)
    (merge : Bool) :
    (∀ p, (copy_config_to_project env tdir d merge).result = .ok p →
      cli_copy env tdir d merge = (0, none)) ∧
    (∀ e, (copy_config_to_project env tdir d merge).result = .error e →
      cli_copy env tdir d merge = (1, some ("Error: " ++ e))) := by
  constructor <;> intro x h <;> simp [cli_copy, h]

/-- Claim C9, witness: a failing invocation exits 1 with the message on
stderr. -/
theorem cli_copy_exit_codes_wit :
    cli_copy ⟨.error ("boom"), none⟩ ("t") [] false =
      (1, some ("Error: " ++ "boom")) :=
  (cli_copy_exit_codes ⟨.error ("boom"), none⟩ ("t") [] false).2 ("boom") rfl

/-- Claim C10.  Every successful invocation, in every branch, returns a
path directly inside the target directory, writes exactly that path, and
leaves it holding a content that ends byte-for-byte with the attribution
header followed by the bundled content. -/
theorem written_file_suffix_and_location (env : Env) (tdir : String)
    (d : Dir) (merge : Bool) (src : String) (p : TPath)
    (hb : env.bundled = .ok src)
    (hres : (copy_config_to_project env tdir d merge).result = .ok p) :
    p.dir = tdir ∧
    (copy_config_to_project env tdir d merge).writes.map Prod.fst =
      [p.name] ∧
    ∃ pre c, (copy_config_to_project env tdir d merge).dirAfter.read p.name =
      some c ∧ c = pre ++ (headerText lintConfigsVersion ++ src) := by
  have hne : sidecarName ≠ canonicalName := by decide
  cases hwr : env.writeErr with
  | some e =>
      exfalso
      cases merge <;> cases hex : d.read canonicalName <;>
        simp_all [copy_config_to_project]
  | none =>
      cases merge with
      | true =>
          cases hex : d.read canonicalName with
          | none =>
              simp only [copy_config_to_project, hb, hwr, hex] at hres
              simp only [Option.isSome_none, Bool.and_false,
                Bool.false_eq_true, if_false] at hres
              simp at hres
              subst hres
              refine ⟨rfl, ?_, "",
                headerText lintConfigsVersion ++ "" ++ src, ?_, ?_⟩ <;>
                simp [copy_config_to_project, hb, hwr, hex, Dir.read_write,
                  String.empty_append]
          | some orig =>
              simp [copy_config_to_project, hb, hwr, hex] at hres
              subst hres
              refine ⟨rfl, ?_, pyRstrip orig ++ separatorText,
                pyRstrip orig ++ separatorText ++
                  headerText lintConfigsVersion ++ src, ?_, ?_⟩
              · simp [copy_config_to_project, hb, hwr, hex]
              · simp [copy_config_to_project, hb, hwr, hex, Dir.read_write]
              · rw [String.append_assoc]
      | false =>
          cases hex : d.read canonicalName with
          | none =>
              simp [copy_config_to_project, hb, hwr, hex] at hres
              subst hres
              refine ⟨rfl, ?_, "",
                headerText lintConfigsVersion ++ "" ++ src, ?_, ?_⟩ <;>
                simp [copy_config_to_project, hb, hwr, hex, Dir.read_write,
                  String.empty_append]
          | some orig =>
              simp [copy_config_to_project, hb, hwr, hex] at hres
              subst hres
              refine ⟨rfl, ?_, "",
                headerText lintConfigsVersion ++ "" ++ src, ?_, ?_⟩ <;>
                simp [copy_config_to_project, hb, hwr, hex, Dir.read_write,
                  hne, String.empty_append]

/-- Claim C10, witness at a concrete successful invocation. -/
theorem written_file_suffix_and_location_wit :
    (⟨"t", canonicalName⟩ : TPath).dir = "t" ∧
    (copy_config_to_project ⟨.ok ("SRC"), none⟩ ("t") [] false).writes.map
      Prod.fst = [(⟨"t", canonicalName⟩ : TPath).name] ∧
    ∃ pre c, (copy_config_to_project ⟨.ok ("SRC"), none⟩ ("t") []
        false).dirAfter.read (⟨"t", canonicalName⟩ : TPath).name =
      some c ∧ c = pre ++ (headerText lintConfigsVersion ++ "SRC") :=
  written_file_suffix_and_location ⟨.ok ("SRC"), none⟩ ("t") [] false
    ("SRC") ⟨"t", canonicalName⟩ rfl rfl
